import Mathlib

/-!
Shallow embedding of the bigmemory storage engine (src/src/BigMatrix.cpp and
src/src/bigmemory.cpp): element-type NA sentinels and range coercion, the bulk
read/write loops of the binding layer, the create/connect/destroy lifecycle of
the shared and file-backed stores, and the batched column-lock protocol.
Machine values are modelled as `Int` (every value handled by the integer
element kinds is exactly representable), stateful loops as explicit state
passing, and fallible operations as `Option`/`Except`.
-/

/-! ### Element-type constants

The element-type constants are written symbolically in src (NA_CHAR,
R_CHAR_MIN, ...); the header defining them (util.h) is not under src/. -/

/-- Modelled from the spec: util.h (absent from src/) defines the reserved NA
sentinel of the Int8 element type; per the spec each type reserves one value of
its width as the missing-value sentinel, the minimum representable one. -/
def NA_CHAR : ℤ := -128

/-- Modelled from the spec: lower end of the valid Int8 range (util.h, absent
from src/): all representable 1-byte values except the NA sentinel. -/
def R_CHAR_MIN : ℤ := -127

/-- Modelled from the spec: upper end of the valid Int8 range (util.h, absent
from src/). -/
def R_CHAR_MAX : ℤ := 127

/-- Modelled from the spec: NA sentinel of the Int16 element type (util.h,
absent from src/). -/
def NA_SHORT : ℤ := -32768

/-- Modelled from the spec: lower end of the valid Int16 range (util.h, absent
from src/). -/
def R_SHORT_MIN : ℤ := -32767

/-- Modelled from the spec: upper end of the valid Int16 range (util.h, absent
from src/). -/
def R_SHORT_MAX : ℤ := 32767

/-- NA sentinel of the Int32 element type: NA_INTEGER from the R headers,
the minimum 32-bit integer. -/
def NA_INTEGER : ℤ := -2147483648

/-- Modelled from the spec: lower end of the valid Int32 range (util.h, absent
from src/). -/
def R_INT_MIN : ℤ := -2147483647

/-- Modelled from the spec: upper end of the valid Int32 range (util.h, absent
from src/). -/
def R_INT_MAX : ℤ := 2147483647

/-! ### The element coercion of the bulk write templates -/

/-- The per-element coercion performed by every Set* template in
bigmemory.cpp (for example lines 78-82 of SetMatrixElements): a supplied value
below C_MIN or above C_MAX is replaced by the NA sentinel NA_C passed by the
dispatcher, any other value is stored unchanged.  For the integer element
kinds the supplied values and all three constants are exactly representable,
so the C double comparisons and the final static_cast are exact on `Int`. -/
def storeVal (cmin cmax naC v : ℤ) : ℤ :=
  if v < cmin ∨ cmax < v then naC else v

/-! ### Bulk writes: cell visiting order and value recycling
(bigmemory.cpp SetMatrixElements 56-85, SetMatrixAll 87-114,
SetMatrixCols 116-144, SetMatrixRows 146-174) -/

/-- The column-major visiting order of the two nested loops shared by all four
bulk write templates: the outer loop walks the column list, the inner loop the
row list. -/
def colMajorCells (cs rs : List ℕ) : List (ℕ × ℕ) :=
  cs.flatMap fun c => rs.map fun r => (c, r)

/-- The body of the nested write loops: one write per visited cell, with the
running counter k selecting vals[k % valLength] (the kIndex = k++ % valLength
line of each template) and the storeVal coercion applied before storing.  The
matrix is a function from (column, row) to the stored value. -/
def writeCellsFrom (cmin cmax naC : ℤ) (vals : List ℤ) :
    List (ℕ × ℕ) → ℕ → (ℕ → ℕ → ℤ) → ℕ → ℕ → ℤ
  | [], _, store => store
  | cell :: rest, k, store =>
      writeCellsFrom cmin cmax naC vals rest (k + 1)
        (fun c r =>
          if c = cell.1 ∧ r = cell.2 then
            storeVal cmin cmax naC (vals.getD (k % vals.length) 0)
          else store c r)

/-- Cell order of SetMatrixElements: caller-supplied 1-based column and row
index lists, each index decremented before use (bigmemory.cpp lines 75, 79). -/
def elemCells (cols rows : List ℕ) : List (ℕ × ℕ) :=
  colMajorCells (cols.map (· - 1)) (rows.map (· - 1))

/-- SetMatrixElements (bigmemory.cpp 56-85). -/
def setMatrixElements (cmin cmax naC : ℤ) (mat : ℕ → ℕ → ℤ)
    (cols rows : List ℕ) (vals : List ℤ) : ℕ → ℕ → ℤ :=
  writeCellsFrom cmin cmax naC vals (elemCells cols rows) 0 mat

/-- SetMatrixAll (bigmemory.cpp 87-114): every cell of the matrix, 0-based. -/
def setMatrixAll (cmin cmax naC : ℤ) (mat : ℕ → ℕ → ℤ)
    (ncol nrow : ℕ) (vals : List ℤ) : ℕ → ℕ → ℤ :=
  writeCellsFrom cmin cmax naC vals
    (colMajorCells (List.range ncol) (List.range nrow)) 0 mat

/-- SetMatrixCols (bigmemory.cpp 116-144): selected 1-based columns, all rows. -/
def setMatrixCols (cmin cmax naC : ℤ) (mat : ℕ → ℕ → ℤ)
    (cols : List ℕ) (nrow : ℕ) (vals : List ℤ) : ℕ → ℕ → ℤ :=
  writeCellsFrom cmin cmax naC vals
    (colMajorCells (cols.map (· - 1)) (List.range nrow)) 0 mat

/-- SetMatrixRows (bigmemory.cpp 146-174): all columns, selected 1-based rows. -/
def setMatrixRows (cmin cmax naC : ℤ) (mat : ℕ → ℕ → ℤ)
    (ncol : ℕ) (rows : List ℕ) (vals : List ℤ) : ℕ → ℕ → ℤ :=
  writeCellsFrom cmin cmax naC vals
    (colMajorCells (List.range ncol) (rows.map (· - 1))) 0 mat

/-! ### Element reads (bigmemory.cpp GetMatrixElements 390-476) -/

/-- One column step of the GetMatrixElements output loop.  The state is the
output cursor k together with the output vector (a function from position to
value, starting from the uninitialized contents of Rf_allocMatrix).  A `none`
column index is an NA index: the source (lines 418-424) then writes NA_R at
pRet[k] once per requested row WITHOUT advancing k.  Otherwise each requested
row advances k, writing NA_R for an NA row index and the NA-mapped stored
element for a real one (lines 427-443). -/
def getElemsStep (mat : ℕ → ℕ → ℤ) (naC naR : ℤ) (rows : List (Option ℕ))
    (st : ℕ × (ℕ → ℤ)) (c : Option ℕ) : ℕ × (ℕ → ℤ) :=
  match c with
  | none =>
      (st.1, rows.foldl (fun ret _ => Function.update ret st.1 naR) st.2)
  | some ci =>
      rows.foldl (fun st2 r =>
        match r with
        | none => (st2.1 + 1, Function.update st2.2 st2.1 naR)
        | some rj =>
            (st2.1 + 1, Function.update st2.2 st2.1
              (if mat (ci - 1) (rj - 1) = naC then naR
               else mat (ci - 1) (rj - 1)))) st

/-- GetMatrixElements (bigmemory.cpp 390-476), restricted to the element part
of the returned triple.  Column and row indices are 1-based, `none` meaning an
NA index; `init` is the (arbitrary, uninitialized) content of the freshly
allocated output. -/
def getMatrixElements (mat : ℕ → ℕ → ℤ) (naC naR : ℤ)
    (cols rows : List (Option ℕ)) (init : ℕ → ℤ) : ℕ → ℤ :=
  (cols.foldl (getElemsStep mat naC naR rows) (0, init)).2

/-- A concrete 2 by 2 matrix used to evaluate the read path: column c holds the
values 10*(c+1)+1 and 10*(c+1)+2. -/
def exampleMat : ℕ → ℕ → ℤ := fun c r => 10 * (c + 1) + (r + 1)

/-! ### Reference-counted lifecycle
(BigMatrix.cpp SharedMemoryBigMatrix::create 298-365 / connect 398-458 /
destroy 468-518, FileBackedBigMatrix::destroy 743-795) -/

/-- Shared bookkeeping of one shared or file-backed matrix: the shared
reference count and whether the named data segments and the named locks
(per-column and structural) still exist. -/
structure ShmState where
  count : ℕ
  segsExist : Bool
  locksExist : Bool
deriving DecidableEq

/-- Modelled from the spec: the ReferenceCounter (class SharedCounter, whose
header is absent from src/) is a named shared integer; create() initializes it
to 1 while creating the segments and locks (BigMatrix.cpp 298-365). -/
def shmCreate : ShmState := ⟨1, true, true⟩

/-- Modelled from the spec: a successful connect() increments the shared
reference count by one and touches no data resource
(BigMatrix.cpp 398-458, counter semantics from the spec since the
SharedCounter header is absent from src/). -/
def shmConnectStep (s : ShmState) : ShmState :=
  ⟨s.count + 1, s.segsExist, s.locksExist⟩

/-- destroy() (BigMatrix.cpp 468-518 and 743-795): each removal of the data
segments and of the locks is guarded by the check that the shared counter
currently reads 1, and the counter is then decremented (the decrement is the
counter teardown, modelled from the spec since the SharedCounter header is
absent from src/).  The returned flag records whether the shared resources
were removed by this call. -/
def shmDestroyStep (s : ShmState) : ShmState × Bool :=
  (⟨s.count - 1,
    (if s.count = 1 then false else s.segsExist),
    (if s.count = 1 then false else s.locksExist)⟩,
   decide (s.count = 1))

/-- n successive connect() calls. -/
def shmConnects : ℕ → ShmState → ShmState
  | 0, s => s
  | n + 1, s => shmConnects n (shmConnectStep s)

/-- m successive destroy() calls, accumulating how many of them removed the
shared resources. -/
def shmDestroys : ℕ → ShmState × ℕ → ShmState × ℕ
  | 0, p => p
  | m + 1, p =>
      shmDestroys m
        ((shmDestroyStep p.1).1, p.2 + (if (shmDestroyStep p.1).2 then 1 else 0))

/-! ### Separated shared create with rollback
(BigMatrix.cpp CreateSharedSepMatrix 231-263) -/

/-- The segment creation loop of CreateSharedSepMatrix.  `fail i` says whether
creating the shared segment for column i throws interprocess_exception.  The
first component is the result (`none` on failure), the second the set of
segments of this matrix that remain discoverable by name afterwards: on
failure at column i the catch block removes every segment 0..i-1
(BigMatrix.cpp 251-260). -/
def createSegsGo (fail : ℕ → Bool) : ℕ → ℕ → List ℕ → Option (List ℕ) × List ℕ
  | _, 0, created => (some created, created)
  | i, r + 1, created =>
      if fail i then (none, [])
      else createSegsGo fail (i + 1) r (created ++ [i])

/-- CreateSharedSepMatrix (BigMatrix.cpp 231-263) for ncol columns. -/
def CreateSharedSepMatrix (fail : ℕ → Bool) (ncol : ℕ) :
    Option (List ℕ) × List ℕ :=
  createSegsGo fail 0 ncol []

/-! ### Local create (BigMatrix.cpp CreateLocalSepColMatrix 51-61,
LocalBigMatrix::create 69-118) -/

/-- The allocation loop of CreateLocalSepColMatrix.  `fail i` says whether
new T[nrow] for column i throws bad_alloc.  The first component is the result,
the second the column blocks that are still allocated but unreachable when the
exception propagates: the loop (BigMatrix.cpp 54-59) has no cleanup handler,
so on failure at column i the blocks 0..i-1 (and the outer pointer array) are
left allocated with no owner. -/
def allocSepGo (fail : ℕ → Bool) : ℕ → ℕ → List ℕ → Option (List ℕ) × List ℕ
  | _, 0, allocated => (some allocated, [])
  | i, r + 1, allocated =>
      if fail i then (none, allocated)
      else allocSepGo fail (i + 1) r (allocated ++ [i])

/-- CreateLocalSepColMatrix (BigMatrix.cpp 51-61) for ncol columns. -/
def CreateLocalSepColMatrix (fail : ℕ → Bool) (ncol : ℕ) :
    Option (List ℕ) × List ℕ :=
  allocSepGo fail 0 ncol []

/-- The closed set of element type codes dispatched by every switch(_matType)
in the source. -/
def isValidMatType (t : ℕ) : Bool :=
  t == 1 || t == 2 || t == 4 || t == 8

/-- Outcome of LocalBigMatrix::create: the returned Bool, the value of the
_matrix pointer (`none` when the switch assigned nothing), and the blocks
leaked by a partial Separated allocation failure. -/
structure LocalCreateResult where
  success : Bool
  matrix : Option (List ℕ)
  leaked : List ℕ
deriving DecidableEq

/-- LocalBigMatrix::create (BigMatrix.cpp 69-118): dispatches on layout and on
the element type code.  A type code outside {1,2,4,8} falls through every
switch case, leaving _matrix unassigned, and the function still returns true;
false is returned only when an allocation throws bad_alloc (caught at
lines 113-116). -/
def LocalBigMatrix.create (fail : ℕ → Bool) (matType ncol : ℕ)
    (sepCols : Bool) : LocalCreateResult :=
  if sepCols then
    if isValidMatType matType then
      match CreateLocalSepColMatrix fail ncol with
      | (some blocks, _) => ⟨true, some blocks, []⟩
      | (none, leaked) => ⟨false, none, leaked⟩
    else ⟨true, none, []⟩
  else
    if isValidMatType matType then
      (if fail 0 then ⟨false, none, []⟩ else ⟨true, some [0], []⟩)
    else ⟨true, none, []⟩

/-! ### Shared connect (BigMatrix.cpp ConnectSharedSepMatrix 367-385,
ConnectSharedMatrix 387-396, SharedMemoryBigMatrix::connect 398-458) -/

/-- The only failure mode of connect: a named backing resource is absent. -/
inductive ConnectError
  | doesNotExist
deriving DecidableEq

/-- The open_only loop of ConnectSharedSepMatrix (BigMatrix.cpp 374-383):
opening column segment i throws when the named segment does not exist. -/
def openSegsGo (segExists : ℕ → Bool) : ℕ → ℕ → Except ConnectError Unit
  | _, 0 => Except.ok ()
  | i, r + 1 =>
      if segExists i then openSegsGo segExists (i + 1) r
      else Except.error ConnectError.doesNotExist

/-- Modelled from the spec: SharedMemoryBigMatrix::connect first opens the
existing ReferenceCounter by name (the SharedCounter header is absent from
src/; per the spec this fails with DoesNotExistError when the counter is
absent), then opens every data segment derived from the identity with
open_only, which fails when the named segment is absent (Separated: one
segment per column, Contiguous: the single combined segment,
BigMatrix.cpp 367-458). -/
def SharedMemoryBigMatrix.connect (counterExists : Bool)
    (segExists : ℕ → Bool) (sepCols : Bool) (ncol : ℕ) :
    Except ConnectError Unit :=
  if counterExists then
    if sepCols then openSegsGo segExists 0 ncol
    else if segExists 0 then Except.ok ()
    else Except.error ConnectError.doesNotExist
  else Except.error ConnectError.doesNotExist

/-! ### File-backed destroy (BigMatrix.cpp DestroyFileBackedSepMatrix 728-741,
FileBackedBigMatrix::destroy 743-795, CreateFileBackedSepMatrix 539-562) -/

/-- The name of the backing file of column i as built by
CreateFileBackedSepMatrix and ConnectFileBackedSepMatrix before prefixing the
directory (BigMatrix.cpp 530, 547). -/
def fbColumnFileName (fileName : String) (i : ℕ) : String :=
  fileName ++ "_column_" ++ toString i

/-- The full paths of the backing files written by CreateFileBackedSepMatrix
(BigMatrix.cpp 539-562): filePath ++ fileName ++ "_column_" ++ i. -/
def CreateFileBackedSepMatrix (filePath fileName : String) (ncol : ℕ) :
    List String :=
  (List.range ncol).map fun i => filePath ++ fbColumnFileName fileName i

/-- The unlink calls issued by DestroyFileBackedSepMatrix
(BigMatrix.cpp 728-741): for each column, when the preserve flag is not set,
unlink(fileName ++ "_column_" ++ i) — note the directory (filePath) is not
part of the name passed to unlink. -/
def DestroyFileBackedSepMatrix (fileName : String) (preserve : Bool)
    (ncol : ℕ) : List String :=
  (List.range ncol).foldl
    (fun acc i => acc ++ (if preserve then [] else [fbColumnFileName fileName i]))
    []

/-- The unlink calls issued by FileBackedBigMatrix::destroy
(BigMatrix.cpp 743-795): file deletion only happens under the check that the
shared counter currently reads 1, and only when the preserve flag is unset. -/
def FileBackedBigMatrix.destroyUnlinks (count : ℕ) (sepCols preserve : Bool)
    (fileName : String) (ncol : ℕ) : List String :=
  if sepCols then
    if count = 1 then DestroyFileBackedSepMatrix fileName preserve ncol else []
  else
    if count = 1 then (if preserve then [] else [fileName]) else []

/-! ### Batched column locks (BigMatrix.cpp SharedBigMatrix::read_lock 195-205,
read_write_lock 207-217, unlock 219-229) -/

/-- Observable lock-table actions of the batched calls. -/
inductive LockEvent
  | structAcquire
  | structRelease
  | colReadLock (i : ℕ)
  | colWriteLock (i : ℕ)
  | colUnlock (i : ℕ)
deriving DecidableEq

/-- SharedBigMatrix::read_lock (BigMatrix.cpp 195-205): acquires the
structural lock, then acquires the read lock of each listed column in order,
then releases the structural lock. -/
def SharedBigMatrix.read_lock (cols : List ℕ) : List LockEvent :=
  cols.foldl (fun t c => t ++ [LockEvent.colReadLock c])
    [LockEvent.structAcquire] ++ [LockEvent.structRelease]

/-- SharedBigMatrix::read_write_lock (BigMatrix.cpp 207-217): same shape with
exclusive per-column locks. -/
def SharedBigMatrix.read_write_lock (cols : List ℕ) : List LockEvent :=
  cols.foldl (fun t c => t ++ [LockEvent.colWriteLock c])
    [LockEvent.structAcquire] ++ [LockEvent.structRelease]

/-- SharedBigMatrix::unlock (BigMatrix.cpp 219-229): releases each listed
column lock in order.  The structural lock acquisition and release around the
loop are commented out in the source (lines 221 and 227). -/
def SharedBigMatrix.unlock (cols : List ℕ) : List LockEvent :=
  cols.foldl (fun t c => t ++ [LockEvent.colUnlock c]) []

/-! ## Helper lemmas -/

/-- A foldl that appends one mapped element per step is a map. -/
theorem foldl_append_map {α β : Type} (f : α → β) (l : List α) (acc : List β) :
    l.foldl (fun t c => t ++ [f c]) acc = acc ++ l.map f := by
  induction l generalizing acc with
  | nil => simp
  | cons a l ih => simp [List.foldl_cons, ih, List.append_assoc]

/-- A cell never visited keeps its previous content. -/
theorem writeCellsFrom_not_mem (cmin cmax naC : ℤ) (vals : List ℤ)
    (cells : List (ℕ × ℕ)) (k : ℕ) (store : ℕ → ℕ → ℤ) (c r : ℕ)
    (h : (c, r) ∉ cells) :
    writeCellsFrom cmin cmax naC vals cells k store c r = store c r := by
  induction cells generalizing k store with
  | nil => rfl
  | cons hd tl ih =>
      have h1 : (c, r) ≠ hd := fun he => h (he ▸ List.mem_cons_self hd tl)
      have h2 : (c, r) ∉ tl := fun hm => h (List.mem_cons_of_mem hd hm)
      rw [writeCellsFrom, ih _ _ h2]
      have h3 : ¬(c = hd.1 ∧ r = hd.2) := by
        rintro ⟨e1, e2⟩
        exact h1 (Prod.ext e1 e2)
      simp [h3]

/-- When the visited cells are pairwise distinct, the cell visited at step k
receives the value selected by counter k0 + k. -/
theorem writeCellsFrom_visit (cmin cmax naC : ℤ) (vals : List ℤ)
    (cells : List (ℕ × ℕ)) (k0 k : ℕ) (store : ℕ → ℕ → ℤ)
    (hnd : cells.Nodup) (hk : k < cells.length) :
    writeCellsFrom cmin cmax naC vals cells k0 store
        (cells.getD k (0, 0)).1 (cells.getD k (0, 0)).2
      = storeVal cmin cmax naC (vals.getD ((k0 + k) % vals.length) 0) := by
  induction cells generalizing k0 k store with
  | nil => simp at hk
  | cons hd tl ih =>
      rcases List.nodup_cons.mp hnd with ⟨hhd, htl⟩
      cases k with
      | zero =>
          show writeCellsFrom cmin cmax naC vals (hd :: tl) k0 store hd.1 hd.2 = _
          rw [writeCellsFrom,
            writeCellsFrom_not_mem cmin cmax naC vals tl (k0 + 1) _ hd.1 hd.2
              (show hd ∉ tl from hhd)]
          simp
      | succ k =>
          have hk2 : k < tl.length := by
            simpa using Nat.lt_of_succ_lt_succ (by simpa using hk)
          have heq : k0 + 1 + k = k0 + (k + 1) := by omega
          have hstep := ih (k0 + 1) k
            (fun c r =>
              if c = hd.1 ∧ r = hd.2 then
                storeVal cmin cmax naC (vals.getD (k0 % vals.length) 0)
              else store c r) htl hk2
          rw [heq] at hstep
          show writeCellsFrom cmin cmax naC vals (hd :: tl) k0 store
              (tl.getD k (0, 0)).1 (tl.getD k (0, 0)).2 = _
          rw [writeCellsFrom]
          exact hstep

/-- The product of index lists without duplicates has no duplicate cells. -/
theorem colMajorCells_nodup {cs rs : List ℕ} (h1 : cs.Nodup) (h2 : rs.Nodup) :
    (colMajorCells cs rs).Nodup :=
  List.Nodup.product h1 h2

/-- Number of visited cells. -/
theorem colMajorCells_length (cs rs : List ℕ) :
    (colMajorCells cs rs).length = cs.length * rs.length :=
  List.length_product cs rs

/-! ## Lifecycle lemmas -/

theorem shmConnects_closed (n : ℕ) : ∀ c : ℕ,
    shmConnects n ⟨c, true, true⟩ = ⟨c + n, true, true⟩ := by
  induction n with
  | zero => intro c; rfl
  | succ n ih =>
      intro c
      rw [shmConnects]
      have h1 : shmConnectStep ⟨c, true, true⟩ = ⟨c + 1, true, true⟩ := rfl
      rw [h1, ih (c + 1)]
      congr 1
      omega

theorem shmDestroys_dead (m : ℕ) : ∀ r : ℕ,
    shmDestroys m (⟨0, false, false⟩, r) = (⟨0, false, false⟩, r) := by
  induction m with
  | zero => intro r; rfl
  | succ m ih =>
      intro r
      rw [shmDestroys]
      have h1 : (shmDestroyStep ⟨0, false, false⟩).1 = ⟨0, false, false⟩ := rfl
      have h2 : (shmDestroyStep ⟨0, false, false⟩).2 = false := rfl
      rw [h1, h2]
      simpa using ih r

theorem shmDestroys_closed (m : ℕ) : ∀ c : ℕ, 0 < c →
    shmDestroys m (⟨c, true, true⟩, 0)
      = (⟨c - m, decide (m < c), decide (m < c)⟩, if c ≤ m then 1 else 0) := by
  induction m with
  | zero =>
      intro c hc
      rw [shmDestroys, decide_eq_true (show 0 < c from hc),
        if_neg (show ¬c ≤ 0 by omega)]
      simp
  | succ m ih =>
      intro c hc
      rw [shmDestroys]
      by_cases h1 : c = 1
      · subst h1
        show shmDestroys m (⟨0, false, false⟩, 1) = _
        have e1 : 1 - (m + 1) = 0 := by omega
        have e2 : decide (m + 1 < 1) = false := by
          rw [decide_eq_false_iff_not]; omega
        rw [e1, e2, if_pos (show 1 ≤ m + 1 by omega)]
        exact shmDestroys_dead m 1
      · have hc2 : 2 ≤ c := by omega
        have hs1 : (shmDestroyStep ⟨c, true, true⟩).1 = ⟨c - 1, true, true⟩ := by
          simp [shmDestroyStep, h1]
        have hs2 : (shmDestroyStep ⟨c, true, true⟩).2 = false := by
          simp [shmDestroyStep, h1]
        rw [hs1, hs2]
        show shmDestroys m (⟨c - 1, true, true⟩, 0) = _
        rw [ih (c - 1) (by omega)]
        have e1 : c - 1 - m = c - (m + 1) := by omega
        have e2 : decide (m < c - 1) = decide (m + 1 < c) := by
          rw [decide_eq_decide]; omega
        have e3 : (if c - 1 ≤ m then (1 : ℕ) else 0) = if c ≤ m + 1 then 1 else 0 := by
          by_cases h : c - 1 ≤ m
          · rw [if_pos h, if_pos (by omega)]
          · rw [if_neg h, if_neg (by omega)]
        rw [e1, e2, e3]


/-! ## Rollback and allocation-failure lemmas -/

/-- If the first failing segment creation is at column i + k, the whole
Separated shared create fails and removes every segment it had created. -/
theorem createSegsGo_first_fail (fail : ℕ → Bool) :
    ∀ k r i created, k < r → fail (i + k) = true →
      (∀ j, j < k → fail (i + j) = false) →
      createSegsGo fail i r created = (none, []) := by
  intro k
  induction k with
  | zero =>
      intro r i created hr hf _
      match r, hr with
      | r + 1, _ =>
          rw [createSegsGo]
          rw [show fail i = true by simpa using hf]
          simp
  | succ k ih =>
      intro r i created hr hf hprev
      match r, hr with
      | r + 1, hr =>
          rw [createSegsGo]
          have h0 : fail i = false := by simpa using hprev 0 (Nat.succ_pos k)
          rw [h0]
          simp only [Bool.false_eq_true, if_false]
          apply ih r (i + 1) (created ++ [i]) (by omega)
          · rw [show i + 1 + k = i + (k + 1) by omega]
            exact hf
          · intro j hj
            rw [show i + 1 + j = i + (j + 1) by omega]
            exact hprev (j + 1) (by omega)

/-- A failed Separated local allocation loop implies some block allocation
actually threw. -/
theorem allocSepGo_none_fail (fail : ℕ → Bool) :
    ∀ r i acc out, allocSepGo fail i r acc = (none, out) → ∃ j, fail j = true := by
  intro r
  induction r with
  | zero =>
      intro i acc out h
      exact absurd h (by simp [allocSepGo])
  | succ r ih =>
      intro i acc out h
      rw [allocSepGo] at h
      by_cases hf : fail i = true
      · exact ⟨i, hf⟩
      · rw [Bool.not_eq_true] at hf
        rw [hf] at h
        simp only [Bool.false_eq_true, if_false] at h
        exact ih _ _ _ h

/-- LocalBigMatrix::create returns false only when some allocation threw. -/
theorem localCreate_success_false (f : ℕ → Bool) (t ncol : ℕ) (sep : Bool)
    (h : (LocalBigMatrix.create f t ncol sep).success = false) :
    ∃ i, f i = true := by
  unfold LocalBigMatrix.create at h
  cases sep with
  | false =>
      simp only [Bool.false_eq_true, if_false] at h
      by_cases hv : isValidMatType t = true
      · rw [if_pos hv] at h
        by_cases hf : f 0 = true
        · exact ⟨0, hf⟩
        · rw [Bool.not_eq_true] at hf
          rw [hf] at h
          simp at h
      · rw [if_neg hv] at h
        simp at h
  | true =>
      simp only [if_true] at h
      by_cases hv : isValidMatType t = true
      · rw [if_pos hv] at h
        rcases hm : CreateLocalSepColMatrix f ncol with ⟨o, l⟩
        rw [hm] at h
        cases o with
        | some blocks => simp at h
        | none => exact allocSepGo_none_fail f ncol 0 [] l hm
      · rw [if_neg hv] at h
        simp at h

/-- The segment-open loop of connect succeeds exactly when every named
segment exists. -/
theorem openSegsGo_ok_iff (se : ℕ → Bool) :
    ∀ r i, openSegsGo se i r = Except.ok () ↔ ∀ j, j < r → se (i + j) = true := by
  intro r
  induction r with
  | zero =>
      intro i
      simp [openSegsGo]
  | succ r ih =>
      intro i
      rw [openSegsGo]
      by_cases hs : se i = true
      · rw [if_pos hs, ih (i + 1)]
        constructor
        · intro hall j hj
          cases j with
          | zero => simpa using hs
          | succ j =>
              rw [show i + (j + 1) = i + 1 + j by omega]
              exact hall j (by omega)
        · intro hall j hj
          rw [show i + 1 + j = i + (j + 1) by omega]
          exact hall (j + 1) (by omega)
      · rw [if_neg hs]
        constructor
        · intro he
          exact Except.noConfusion he
        · intro hall
          exact absurd (by simpa using hall 0 (Nat.succ_pos r)) hs

/-! ## Claim theorems -/

/-- C1: reference-count lifecycle of the shared and file-backed stores.
create() establishes a count of 1; n successful connect() calls raise it to
1 + n; each destroy() decrements it by exactly 1; and the shared bookkeeping
and data resources (segments and locks) are removed by exactly one destroy():
the one whose decrement takes the count from 1 to 0 — for fewer destroys
nothing is removed and the resources still exist, for any surplus destroys the
removal count stays at 1. -/
theorem refcount_lifecycle (n m : ℕ) :
    shmCreate.count = 1 ∧
    (shmConnects n shmCreate).count = 1 + n ∧
    (shmDestroys m (shmConnects n shmCreate, 0)).1.count = 1 + n - m ∧
    (shmDestroys m (shmConnects n shmCreate, 0)).2 = (if 1 + n ≤ m then 1 else 0) ∧
    (shmDestroys m (shmConnects n shmCreate, 0)).1.segsExist = decide (m < 1 + n) ∧
    (shmDestroys m (shmConnects n shmCreate, 0)).1.locksExist = decide (m < 1 + n) := by
  have hcon : shmConnects n shmCreate = ⟨1 + n, true, true⟩ := shmConnects_closed n 1
  have hdes := shmDestroys_closed m (1 + n) (by omega)
  rw [hcon, hdes]
  exact ⟨rfl, rfl, rfl, rfl, rfl, rfl⟩

/-- C2: evaluation of the write coercion at the constants the source passes.
CCreateMatrix and CCreateSharedMatrix dispatch the Int32 case with the Int8
constants (bigmemory.cpp 1357-1358, 1378-1379, 2285-2286, 2306-2307), so an
initialization value out of the Int32 range is stored as NA_CHAR = -128, an
ordinary Int32 value distinct from the Int32 NA sentinel; the element-wise
dispatch of SetMatrixElements (bigmemory.cpp 2013-2015) passes the correct
constants and does store the Int32 sentinel. -/
theorem ccreate_int_dispatch_eval :
    storeVal R_CHAR_MIN R_CHAR_MAX NA_CHAR 3000000000 = NA_CHAR ∧
    NA_CHAR ≠ NA_INTEGER ∧
    storeVal R_INT_MIN R_INT_MAX NA_INTEGER 3000000000 = NA_INTEGER ∧
    storeVal R_SHORT_MIN R_SHORT_MAX NA_SHORT 40000 = NA_SHORT ∧
    storeVal R_CHAR_MIN R_CHAR_MAX NA_CHAR (-200) = NA_CHAR := by decide

/-- C3: if creating the shared segment for column k of a Separated
shared-memory create() fails and every earlier column succeeded, create()
returns failure and no segment of the matrix remains discoverable: the catch
block removes segments 0..k-1 before returning. -/
theorem createSharedSep_rollback (fail : ℕ → Bool) (ncol k : ℕ)
    (hk : k < ncol) (hfk : fail k = true)
    (hprev : ∀ j, j < k → fail j = false) :
    CreateSharedSepMatrix fail ncol = (none, []) := by
  have := createSegsGo_first_fail fail k ncol 0 [] hk (by simpa using hfk)
    (by intro j hj; simpa using hprev j hj)
  exact this

/-- C3 witness: three columns, the segment for column 1 fails. -/
theorem createSharedSep_rollback_witness :
    CreateSharedSepMatrix (fun n => decide (n = 1)) 3 = (none, []) :=
  createSharedSep_rollback (fun n => decide (n = 1)) 3 1 (by decide) (by decide)
    (by
      intro j hj
      have hj0 : j = 0 := by omega
      rw [hj0]
      decide)

/-- C4 counterexample: the claim says every batched lock-table call first
acquires the structural lock; unlock([0]) emits only the per-column release
and never touches the structural lock (the structural lock lines of
SharedBigMatrix::unlock are commented out, BigMatrix.cpp 221 and 227). -/
theorem unlock_skips_structural_cex :
    SharedBigMatrix.unlock [0] = [LockEvent.colUnlock 0] ∧
    LockEvent.structAcquire ∉ SharedBigMatrix.unlock [0] ∧
    LockEvent.structRelease ∉ SharedBigMatrix.unlock [0] := by decide

/-- C4 (amended): read_lock and read_write_lock first acquire the structural
lock, then acquire each named per-column lock in the order the column indices
are given, then release the structural lock; unlock releases each named
per-column lock in the given order without acquiring or releasing the
structural lock. -/
theorem batched_lock_protocol (cols : List ℕ) :
    SharedBigMatrix.read_lock cols
      = LockEvent.structAcquire ::
          (cols.map LockEvent.colReadLock ++ [LockEvent.structRelease]) ∧
    SharedBigMatrix.read_write_lock cols
      = LockEvent.structAcquire ::
          (cols.map LockEvent.colWriteLock ++ [LockEvent.structRelease]) ∧
    SharedBigMatrix.unlock cols = cols.map LockEvent.colUnlock ∧
    LockEvent.structAcquire ∉ SharedBigMatrix.unlock cols ∧
    LockEvent.structRelease ∉ SharedBigMatrix.unlock cols := by
  have h1 := foldl_append_map LockEvent.colReadLock cols [LockEvent.structAcquire]
  have h2 := foldl_append_map LockEvent.colWriteLock cols [LockEvent.structAcquire]
  have h3 := foldl_append_map LockEvent.colUnlock cols []
  refine ⟨?_, ?_, ?_, ?_, ?_⟩
  · rw [SharedBigMatrix.read_lock, h1]
    simp
  · rw [SharedBigMatrix.read_write_lock, h2]
    simp
  · rw [SharedBigMatrix.unlock, h3]
    simp
  · rw [SharedBigMatrix.unlock, h3]
    simp
  · rw [SharedBigMatrix.unlock, h3]
    simp

/-- C5: evaluation of the Separated local create at a partial allocation
failure.  With two columns and the allocation of column block 1 throwing
bad_alloc, create() returns failure but the block already allocated for
column 0 is never freed (CreateLocalSepColMatrix, BigMatrix.cpp 51-61, has no
cleanup handler and LocalBigMatrix::create only returns false) — the leaked
list is nonempty, contradicting the claim that every already-allocated block
is freed before returning. -/
theorem localSepCreate_leak :
    (LocalBigMatrix.create (fun n => decide (n = 1)) 4 2 true).success = false ∧
    (LocalBigMatrix.create (fun n => decide (n = 1)) 4 2 true).leaked = [0] ∧
    (LocalBigMatrix.create (fun n => decide (n = 1)) 4 2 true).leaked ≠ [] := by
  decide

/-- C6: shared-memory connect() succeeds exactly when the named
ReferenceCounter and every data segment derived from the identity exist
(one per column when Separated, the single combined segment otherwise), and
its only failure outcome is DoesNotExistError. -/
theorem shm_connect_ok_iff (counterExists : Bool) (segExists : ℕ → Bool)
    (sep : Bool) (ncol : ℕ) :
    (SharedMemoryBigMatrix.connect counterExists segExists sep ncol = Except.ok ()
      ↔ (counterExists = true ∧
          ∀ i, i < (if sep then ncol else 1) → segExists i = true)) ∧
    (SharedMemoryBigMatrix.connect counterExists segExists sep ncol = Except.ok ()
      ∨ SharedMemoryBigMatrix.connect counterExists segExists sep ncol
          = Except.error ConnectError.doesNotExist) := by
  constructor
  · unfold SharedMemoryBigMatrix.connect
    cases counterExists with
    | false =>
        simp only [Bool.false_eq_true, if_false]
        constructor
        · intro he
          exact Except.noConfusion he
        · rintro ⟨he, -⟩
          exact he.elim
    | true =>
        simp only [if_true, true_and]
        cases sep with
        | true =>
            simp only [if_true]
            simpa using openSegsGo_ok_iff segExists ncol 0
        | false =>
            simp only [Bool.false_eq_true, if_false]
            by_cases h0 : segExists 0 = true
            · rw [if_pos h0]
              constructor
              · intro _ i hi
                have hi0 : i = 0 := by omega
                rw [hi0]
                exact h0
              · intro _
                rfl
            · rw [if_neg h0]
              constructor
              · intro he
                exact Except.noConfusion he
              · intro hall
                exact absurd (hall 0 (by omega)) h0
  · cases hres : SharedMemoryBigMatrix.connect counterExists segExists sep ncol with
    | ok u =>
        cases u
        exact Or.inl rfl
    | error e =>
        cases e
        exact Or.inr rfl

/-- C7: evaluation of the file-backed teardown names.  create() writes the
backing file of column 0 at filePath ++ fileName ++ "_column_0", but destroy()
at reference count 1 with the persistence flag unset passes only
fileName ++ "_column_0" to unlink (DestroyFileBackedSepMatrix drops the
directory, BigMatrix.cpp 737-738), so with a nonempty directory the backing
file on disk is not among the unlinked names; with the flag set nothing is
unlinked. -/
theorem fileBacked_destroy_path_mismatch :
    CreateFileBackedSepMatrix "/tmp/" "f" 1 = ["/tmp/f_column_0"] ∧
    FileBackedBigMatrix.destroyUnlinks 1 true false "f" 1 = ["f_column_0"] ∧
    ("/tmp/f_column_0" ∉ FileBackedBigMatrix.destroyUnlinks 1 true false "f" 1) ∧
    FileBackedBigMatrix.destroyUnlinks 1 true true "f" 1 = [] ∧
    FileBackedBigMatrix.destroyUnlinks 1 false true "f" 1 = [] ∧
    FileBackedBigMatrix.destroyUnlinks 1 false false "f" 1 = ["f"] := by decide

/-- C8: in each of the four bulk write operations, when the target cells are
pairwise distinct, the k-th target cell in column-major visiting order
(k starting at 0) receives the supplied value at index k mod valLength,
coerced by storeVal. -/
theorem bulk_write_recycles (cmin cmax naC : ℤ) (mat : ℕ → ℕ → ℤ)
    (cols rows : List ℕ) (ncol nrow : ℕ) (vals : List ℤ) (k1 k2 k3 k4 : ℕ)
    (hv : 0 < vals.length)
    (hc : (cols.map (· - 1)).Nodup) (hr : (rows.map (· - 1)).Nodup)
    (hk1 : k1 < cols.length * rows.length)
    (hk2 : k2 < ncol * nrow)
    (hk3 : k3 < cols.length * nrow)
    (hk4 : k4 < ncol * rows.length) :
    setMatrixElements cmin cmax naC mat cols rows vals
        ((elemCells cols rows).getD k1 (0, 0)).1
        ((elemCells cols rows).getD k1 (0, 0)).2
      = storeVal cmin cmax naC (vals.getD (k1 % vals.length) 0) ∧
    setMatrixAll cmin cmax naC mat ncol nrow vals
        ((colMajorCells (List.range ncol) (List.range nrow)).getD k2 (0, 0)).1
        ((colMajorCells (List.range ncol) (List.range nrow)).getD k2 (0, 0)).2
      = storeVal cmin cmax naC (vals.getD (k2 % vals.length) 0) ∧
    setMatrixCols cmin cmax naC mat cols nrow vals
        ((colMajorCells (cols.map (· - 1)) (List.range nrow)).getD k3 (0, 0)).1
        ((colMajorCells (cols.map (· - 1)) (List.range nrow)).getD k3 (0, 0)).2
      = storeVal cmin cmax naC (vals.getD (k3 % vals.length) 0) ∧
    setMatrixRows cmin cmax naC mat ncol rows vals
        ((colMajorCells (List.range ncol) (rows.map (· - 1))).getD k4 (0, 0)).1
        ((colMajorCells (List.range ncol) (rows.map (· - 1))).getD k4 (0, 0)).2
      = storeVal cmin cmax naC (vals.getD (k4 % vals.length) 0) := by
  refine ⟨?_, ?_, ?_, ?_⟩
  · have hnd : (elemCells cols rows).Nodup := colMajorCells_nodup hc hr
    have hlen : k1 < (elemCells cols rows).length := by
      rw [elemCells, colMajorCells_length]
      simpa using hk1
    have := writeCellsFrom_visit cmin cmax naC vals (elemCells cols rows)
      0 k1 mat hnd hlen
    simpa [setMatrixElements] using this
  · have hnd := colMajorCells_nodup (List.nodup_range ncol) (List.nodup_range nrow)
    have hlen : k2 < (colMajorCells (List.range ncol) (List.range nrow)).length := by
      rw [colMajorCells_length]
      simpa using hk2
    have := writeCellsFrom_visit cmin cmax naC vals
      (colMajorCells (List.range ncol) (List.range nrow)) 0 k2 mat hnd hlen
    simpa [setMatrixAll] using this
  · have hnd := colMajorCells_nodup hc (List.nodup_range nrow)
    have hlen : k3 < (colMajorCells (cols.map (· - 1)) (List.range nrow)).length := by
      rw [colMajorCells_length]
      simpa using hk3
    have := writeCellsFrom_visit cmin cmax naC vals
      (colMajorCells (cols.map (· - 1)) (List.range nrow)) 0 k3 mat hnd hlen
    simpa [setMatrixCols] using this
  · have hnd := colMajorCells_nodup (List.nodup_range ncol) hr
    have hlen : k4 < (colMajorCells (List.range ncol) (rows.map (· - 1))).length := by
      rw [colMajorCells_length]
      simpa using hk4
    have := writeCellsFrom_visit cmin cmax naC vals
      (colMajorCells (List.range ncol) (rows.map (· - 1))) 0 k4 mat hnd hlen
    simpa [setMatrixRows] using this

/-- C8 witness: a 2 by 2 target written from three values; the fourth visited
cell (k = 3) is column 1, row 1 (0-based) and receives the value at index
3 mod 3 = 0, namely 10, in all four operations. -/
theorem bulk_write_recycles_witness :
    setMatrixElements (-127) 127 (-128) (fun _ _ => 0) [1, 2] [1, 2] [10, 20, 30] 1 1
      = 10 ∧
    setMatrixAll (-127) 127 (-128) (fun _ _ => 0) 2 2 [10, 20, 30] 1 1 = 10 ∧
    setMatrixCols (-127) 127 (-128) (fun _ _ => 0) [1, 2] 2 [10, 20, 30] 1 1 = 10 ∧
    setMatrixRows (-127) 127 (-128) (fun _ _ => 0) 2 [1, 2] [10, 20, 30] 1 1 = 10 :=
  bulk_write_recycles (-127) 127 (-128) (fun _ _ => 0) [1, 2] [1, 2] 2 2
    [10, 20, 30] 3 3 3 3 (by decide) (by decide) (by decide) (by decide)
    (by decide) (by decide) (by decide)

/-- C9: evaluation of GetMatrixElements at a 2 by 2 matrix (column 0 holds
11, 12) read with column indices (NA, 1) and row indices (1, 2).  The claim
expects output (NA, NA, 11, 12); because the NA-column branch
(bigmemory.cpp 418-424) never advances the output cursor, the code instead
writes the real column over the NA cells and leaves positions 2 and 3 at the
uninitialized allocation contents (here 999). -/
theorem getMatrixElements_na_col_cursor_bug :
    getMatrixElements exampleMat NA_INTEGER NA_INTEGER [none, some 1]
        [some 1, some 2] (fun _ => 999) 0 = 11 ∧
    getMatrixElements exampleMat NA_INTEGER NA_INTEGER [none, some 1]
        [some 1, some 2] (fun _ => 999) 1 = 12 ∧
    getMatrixElements exampleMat NA_INTEGER NA_INTEGER [none, some 1]
        [some 1, some 2] (fun _ => 999) 2 = 999 ∧
    getMatrixElements exampleMat NA_INTEGER NA_INTEGER [none, some 1]
        [some 1, some 2] (fun _ => 999) 3 = 999 ∧
    (11 : ℤ) ≠ NA_INTEGER ∧ (999 : ℤ) ≠ NA_INTEGER := by decide

/-- C10: LocalBigMatrix::create with a matrixType outside {1, 2, 4, 8} falls
through every switch case: it still returns true and the data pointer is never
assigned (no buffer is allocated and nothing leaks); and whatever the type,
a false return happens only when some allocation actually threw bad_alloc. -/
theorem localCreate_unknown_type (fail : ℕ → Bool) (matType ncol : ℕ) (sep : Bool)
    (h : isValidMatType matType = false) :
    LocalBigMatrix.create fail matType ncol sep = ⟨true, none, []⟩ ∧
    (∀ f2 : ℕ → Bool, ∀ t2 : ℕ,
      (LocalBigMatrix.create f2 t2 ncol sep).success = false → ∃ i, f2 i = true) := by
  constructor
  · unfold LocalBigMatrix.create
    have h2 : ¬isValidMatType matType = true := by
      rw [h]
      simp
    cases sep with
    | false => simp [h2]
    | true => simp [h2]
  · intro f2 t2 h2
    exact localCreate_success_false f2 t2 ncol sep h2

/-- C10 witness: type code 3, two Separated columns, no allocation failure. -/
theorem localCreate_unknown_type_witness :
    LocalBigMatrix.create (fun _ => false) 3 2 true = ⟨true, none, []⟩ ∧
    (∀ f2 : ℕ → Bool, ∀ t2 : ℕ,
      (LocalBigMatrix.create f2 t2 2 true).success = false → ∃ i, f2 i = true) :=
  localCreate_unknown_type (fun _ => false) 3 2 true (by decide)
